import Mathlib

/-!
Verification of the z80pack CPU core (z80core/simcore.c, z80core/simglb.c):
flag tables, CPU lifecycle (init/reset/model switch), the scheduler run
loop, the bus-request fabric, and the front-panel power-off handler.
The build configuration modelled is the full one: both CPU models
compiled in (neither EXCLUDE_Z80 nor EXCLUDE_I8080), with UNDOC_FLAGS
and FLAG_TABLES enabled.
-/

set_option maxHeartbeats 2000000
set_option maxRecDepth 4000

namespace Z80Pack

/-- Modelled from the spec: the flag bit masks come from a header
(simdefs.h) that is not under src/.  The spec fixes the layout of F as
bits {S, Z, Y (undocumented bit 5), H (half-carry), X (undocumented
bit 3), P/V, N, C}, i.e. the standard Z80 order S=bit7, Z=bit6,
Y=bit5, H=bit4, X=bit3, P=bit2, N=bit1, C=bit0. -/
def S_FLAG : Nat := 128

def Z_FLAG : Nat := 64

def Y_FLAG : Nat := 32

def H_FLAG : Nat := 16

def X_FLAG : Nat := 8

def P_FLAG : Nat := 4

def N_FLAG : Nat := 2

def C_FLAG : Nat := 1

/-- Transcribed from simglb.c: precomputed table for fast sign, zero and
parity flag calculation. -/
def szp_flags : List Nat := [
  Z_FLAG|||P_FLAG, 0, 0, P_FLAG, 0, P_FLAG, P_FLAG, 0,
  0, P_FLAG, P_FLAG, 0, P_FLAG, 0, 0, P_FLAG,
  0, P_FLAG, P_FLAG, 0, P_FLAG, 0, 0, P_FLAG,
  P_FLAG, 0, 0, P_FLAG, 0, P_FLAG, P_FLAG, 0,
  0, P_FLAG, P_FLAG, 0, P_FLAG, 0, 0, P_FLAG,
  P_FLAG, 0, 0, P_FLAG, 0, P_FLAG, P_FLAG, 0,
  P_FLAG, 0, 0, P_FLAG, 0, P_FLAG, P_FLAG, 0,
  0, P_FLAG, P_FLAG, 0, P_FLAG, 0, 0, P_FLAG,
  0, P_FLAG, P_FLAG, 0, P_FLAG, 0, 0, P_FLAG,
  P_FLAG, 0, 0, P_FLAG, 0, P_FLAG, P_FLAG, 0,
  P_FLAG, 0, 0, P_FLAG, 0, P_FLAG, P_FLAG, 0,
  0, P_FLAG, P_FLAG, 0, P_FLAG, 0, 0, P_FLAG,
  P_FLAG, 0, 0, P_FLAG, 0, P_FLAG, P_FLAG, 0,
  0, P_FLAG, P_FLAG, 0, P_FLAG, 0, 0, P_FLAG,
  0, P_FLAG, P_FLAG, 0, P_FLAG, 0, 0, P_FLAG,
  P_FLAG, 0, 0, P_FLAG, 0, P_FLAG, P_FLAG, 0,
  S_FLAG, S_FLAG|||P_FLAG, S_FLAG|||P_FLAG, S_FLAG, S_FLAG|||P_FLAG, S_FLAG, S_FLAG, S_FLAG|||P_FLAG,
  S_FLAG|||P_FLAG, S_FLAG, S_FLAG, S_FLAG|||P_FLAG, S_FLAG, S_FLAG|||P_FLAG, S_FLAG|||P_FLAG, S_FLAG,
  S_FLAG|||P_FLAG, S_FLAG, S_FLAG, S_FLAG|||P_FLAG, S_FLAG, S_FLAG|||P_FLAG, S_FLAG|||P_FLAG, S_FLAG,
  S_FLAG, S_FLAG|||P_FLAG, S_FLAG|||P_FLAG, S_FLAG, S_FLAG|||P_FLAG, S_FLAG, S_FLAG, S_FLAG|||P_FLAG,
  S_FLAG|||P_FLAG, S_FLAG, S_FLAG, S_FLAG|||P_FLAG, S_FLAG, S_FLAG|||P_FLAG, S_FLAG|||P_FLAG, S_FLAG,
  S_FLAG, S_FLAG|||P_FLAG, S_FLAG|||P_FLAG, S_FLAG, S_FLAG|||P_FLAG, S_FLAG, S_FLAG, S_FLAG|||P_FLAG,
  S_FLAG, S_FLAG|||P_FLAG, S_FLAG|||P_FLAG, S_FLAG, S_FLAG|||P_FLAG, S_FLAG, S_FLAG, S_FLAG|||P_FLAG,
  S_FLAG|||P_FLAG, S_FLAG, S_FLAG, S_FLAG|||P_FLAG, S_FLAG, S_FLAG|||P_FLAG, S_FLAG|||P_FLAG, S_FLAG,
  S_FLAG|||P_FLAG, S_FLAG, S_FLAG, S_FLAG|||P_FLAG, S_FLAG, S_FLAG|||P_FLAG, S_FLAG|||P_FLAG, S_FLAG,
  S_FLAG, S_FLAG|||P_FLAG, S_FLAG|||P_FLAG, S_FLAG, S_FLAG|||P_FLAG, S_FLAG, S_FLAG, S_FLAG|||P_FLAG,
  S_FLAG, S_FLAG|||P_FLAG, S_FLAG|||P_FLAG, S_FLAG, S_FLAG|||P_FLAG, S_FLAG, S_FLAG, S_FLAG|||P_FLAG,
  S_FLAG|||P_FLAG, S_FLAG, S_FLAG, S_FLAG|||P_FLAG, S_FLAG, S_FLAG|||P_FLAG, S_FLAG|||P_FLAG, S_FLAG,
  S_FLAG, S_FLAG|||P_FLAG, S_FLAG|||P_FLAG, S_FLAG, S_FLAG|||P_FLAG, S_FLAG, S_FLAG, S_FLAG|||P_FLAG,
  S_FLAG|||P_FLAG, S_FLAG, S_FLAG, S_FLAG|||P_FLAG, S_FLAG, S_FLAG|||P_FLAG, S_FLAG|||P_FLAG, S_FLAG,
  S_FLAG|||P_FLAG, S_FLAG, S_FLAG, S_FLAG|||P_FLAG, S_FLAG, S_FLAG|||P_FLAG, S_FLAG|||P_FLAG, S_FLAG,
  S_FLAG, S_FLAG|||P_FLAG, S_FLAG|||P_FLAG, S_FLAG, S_FLAG|||P_FLAG, S_FLAG, S_FLAG, S_FLAG|||P_FLAG]

/-- Transcribed from simglb.c: precomputed table for fast sign, zero, Y, and
X flag calculation (UNDOC_FLAGS build). -/
def szyx_flags : List Nat := [
  Z_FLAG, 0, 0, 0, 0, 0, 0, 0,
  X_FLAG, X_FLAG, X_FLAG, X_FLAG, X_FLAG, X_FLAG, X_FLAG, X_FLAG,
  0, 0, 0, 0, 0, 0, 0, 0,
  X_FLAG, X_FLAG, X_FLAG, X_FLAG, X_FLAG, X_FLAG, X_FLAG, X_FLAG,
  Y_FLAG, Y_FLAG, Y_FLAG, Y_FLAG, Y_FLAG, Y_FLAG, Y_FLAG, Y_FLAG,
  Y_FLAG|||X_FLAG, Y_FLAG|||X_FLAG, Y_FLAG|||X_FLAG, Y_FLAG|||X_FLAG, Y_FLAG|||X_FLAG, Y_FLAG|||X_FLAG, Y_FLAG|||X_FLAG, Y_FLAG|||X_FLAG,
  Y_FLAG, Y_FLAG, Y_FLAG, Y_FLAG, Y_FLAG, Y_FLAG, Y_FLAG, Y_FLAG,
  Y_FLAG|||X_FLAG, Y_FLAG|||X_FLAG, Y_FLAG|||X_FLAG, Y_FLAG|||X_FLAG, Y_FLAG|||X_FLAG, Y_FLAG|||X_FLAG, Y_FLAG|||X_FLAG, Y_FLAG|||X_FLAG,
  0, 0, 0, 0, 0, 0, 0, 0,
  X_FLAG, X_FLAG, X_FLAG, X_FLAG, X_FLAG, X_FLAG, X_FLAG, X_FLAG,
  0, 0, 0, 0, 0, 0, 0, 0,
  X_FLAG, X_FLAG, X_FLAG, X_FLAG, X_FLAG, X_FLAG, X_FLAG, X_FLAG,
  Y_FLAG, Y_FLAG, Y_FLAG, Y_FLAG, Y_FLAG, Y_FLAG, Y_FLAG, Y_FLAG,
  Y_FLAG|||X_FLAG, Y_FLAG|||X_FLAG, Y_FLAG|||X_FLAG, Y_FLAG|||X_FLAG, Y_FLAG|||X_FLAG, Y_FLAG|||X_FLAG, Y_FLAG|||X_FLAG, Y_FLAG|||X_FLAG,
  Y_FLAG, Y_FLAG, Y_FLAG, Y_FLAG, Y_FLAG, Y_FLAG, Y_FLAG, Y_FLAG,
  Y_FLAG|||X_FLAG, Y_FLAG|||X_FLAG, Y_FLAG|||X_FLAG, Y_FLAG|||X_FLAG, Y_FLAG|||X_FLAG, Y_FLAG|||X_FLAG, Y_FLAG|||X_FLAG, Y_FLAG|||X_FLAG,
  S_FLAG, S_FLAG, S_FLAG, S_FLAG, S_FLAG, S_FLAG, S_FLAG, S_FLAG,
  S_FLAG|||X_FLAG, S_FLAG|||X_FLAG, S_FLAG|||X_FLAG, S_FLAG|||X_FLAG, S_FLAG|||X_FLAG, S_FLAG|||X_FLAG, S_FLAG|||X_FLAG, S_FLAG|||X_FLAG,
  S_FLAG, S_FLAG, S_FLAG, S_FLAG, S_FLAG, S_FLAG, S_FLAG, S_FLAG,
  S_FLAG|||X_FLAG, S_FLAG|||X_FLAG, S_FLAG|||X_FLAG, S_FLAG|||X_FLAG, S_FLAG|||X_FLAG, S_FLAG|||X_FLAG, S_FLAG|||X_FLAG, S_FLAG|||X_FLAG,
  S_FLAG|||Y_FLAG, S_FLAG|||Y_FLAG, S_FLAG|||Y_FLAG, S_FLAG|||Y_FLAG, S_FLAG|||Y_FLAG, S_FLAG|||Y_FLAG, S_FLAG|||Y_FLAG, S_FLAG|||Y_FLAG,
  S_FLAG|||Y_FLAG|||X_FLAG, S_FLAG|||Y_FLAG|||X_FLAG, S_FLAG|||Y_FLAG|||X_FLAG, S_FLAG|||Y_FLAG|||X_FLAG, S_FLAG|||Y_FLAG|||X_FLAG, S_FLAG|||Y_FLAG|||X_FLAG, S_FLAG|||Y_FLAG|||X_FLAG, S_FLAG|||Y_FLAG|||X_FLAG,
  S_FLAG|||Y_FLAG, S_FLAG|||Y_FLAG, S_FLAG|||Y_FLAG, S_FLAG|||Y_FLAG, S_FLAG|||Y_FLAG, S_FLAG|||Y_FLAG, S_FLAG|||Y_FLAG, S_FLAG|||Y_FLAG,
  S_FLAG|||Y_FLAG|||X_FLAG, S_FLAG|||Y_FLAG|||X_FLAG, S_FLAG|||Y_FLAG|||X_FLAG, S_FLAG|||Y_FLAG|||X_FLAG, S_FLAG|||Y_FLAG|||X_FLAG, S_FLAG|||Y_FLAG|||X_FLAG, S_FLAG|||Y_FLAG|||X_FLAG, S_FLAG|||Y_FLAG|||X_FLAG,
  S_FLAG, S_FLAG, S_FLAG, S_FLAG, S_FLAG, S_FLAG, S_FLAG, S_FLAG,
  S_FLAG|||X_FLAG, S_FLAG|||X_FLAG, S_FLAG|||X_FLAG, S_FLAG|||X_FLAG, S_FLAG|||X_FLAG, S_FLAG|||X_FLAG, S_FLAG|||X_FLAG, S_FLAG|||X_FLAG,
  S_FLAG, S_FLAG, S_FLAG, S_FLAG, S_FLAG, S_FLAG, S_FLAG, S_FLAG,
  S_FLAG|||X_FLAG, S_FLAG|||X_FLAG, S_FLAG|||X_FLAG, S_FLAG|||X_FLAG, S_FLAG|||X_FLAG, S_FLAG|||X_FLAG, S_FLAG|||X_FLAG, S_FLAG|||X_FLAG,
  S_FLAG|||Y_FLAG, S_FLAG|||Y_FLAG, S_FLAG|||Y_FLAG, S_FLAG|||Y_FLAG, S_FLAG|||Y_FLAG, S_FLAG|||Y_FLAG, S_FLAG|||Y_FLAG, S_FLAG|||Y_FLAG,
  S_FLAG|||Y_FLAG|||X_FLAG, S_FLAG|||Y_FLAG|||X_FLAG, S_FLAG|||Y_FLAG|||X_FLAG, S_FLAG|||Y_FLAG|||X_FLAG, S_FLAG|||Y_FLAG|||X_FLAG, S_FLAG|||Y_FLAG|||X_FLAG, S_FLAG|||Y_FLAG|||X_FLAG, S_FLAG|||Y_FLAG|||X_FLAG,
  S_FLAG|||Y_FLAG, S_FLAG|||Y_FLAG, S_FLAG|||Y_FLAG, S_FLAG|||Y_FLAG, S_FLAG|||Y_FLAG, S_FLAG|||Y_FLAG, S_FLAG|||Y_FLAG, S_FLAG|||Y_FLAG,
  S_FLAG|||Y_FLAG|||X_FLAG, S_FLAG|||Y_FLAG|||X_FLAG, S_FLAG|||Y_FLAG|||X_FLAG, S_FLAG|||Y_FLAG|||X_FLAG, S_FLAG|||Y_FLAG|||X_FLAG, S_FLAG|||Y_FLAG|||X_FLAG, S_FLAG|||Y_FLAG|||X_FLAG, S_FLAG|||Y_FLAG|||X_FLAG]

/-- Transcribed from simglb.c: precomputed table for fast sign, zero, Y, X,
and parity flag calculation (UNDOC_FLAGS build). -/
def szyxp_flags : List Nat := [
  Z_FLAG|||P_FLAG, 0, 0, P_FLAG, 0, P_FLAG, P_FLAG, 0,
  X_FLAG, X_FLAG|||P_FLAG, X_FLAG|||P_FLAG, X_FLAG, X_FLAG|||P_FLAG, X_FLAG, X_FLAG, X_FLAG|||P_FLAG,
  0, P_FLAG, P_FLAG, 0, P_FLAG, 0, 0, P_FLAG,
  X_FLAG|||P_FLAG, X_FLAG, X_FLAG, X_FLAG|||P_FLAG, X_FLAG, X_FLAG|||P_FLAG, X_FLAG|||P_FLAG, X_FLAG,
  Y_FLAG, Y_FLAG|||P_FLAG, Y_FLAG|||P_FLAG, Y_FLAG, Y_FLAG|||P_FLAG, Y_FLAG, Y_FLAG, Y_FLAG|||P_FLAG,
  Y_FLAG|||X_FLAG|||P_FLAG, Y_FLAG|||X_FLAG, Y_FLAG|||X_FLAG, Y_FLAG|||X_FLAG|||P_FLAG, Y_FLAG|||X_FLAG, Y_FLAG|||X_FLAG|||P_FLAG, Y_FLAG|||X_FLAG|||P_FLAG, Y_FLAG|||X_FLAG,
  Y_FLAG|||P_FLAG, Y_FLAG, Y_FLAG, Y_FLAG|||P_FLAG, Y_FLAG, Y_FLAG|||P_FLAG, Y_FLAG|||P_FLAG, Y_FLAG,
  Y_FLAG|||X_FLAG, Y_FLAG|||X_FLAG|||P_FLAG, Y_FLAG|||X_FLAG|||P_FLAG, Y_FLAG|||X_FLAG, Y_FLAG|||X_FLAG|||P_FLAG, Y_FLAG|||X_FLAG, Y_FLAG|||X_FLAG, Y_FLAG|||X_FLAG|||P_FLAG,
  0, P_FLAG, P_FLAG, 0, P_FLAG, 0, 0, P_FLAG,
  X_FLAG|||P_FLAG, X_FLAG, X_FLAG, X_FLAG|||P_FLAG, X_FLAG, X_FLAG|||P_FLAG, X_FLAG|||P_FLAG, X_FLAG,
  P_FLAG, 0, 0, P_FLAG, 0, P_FLAG, P_FLAG, 0,
  X_FLAG, X_FLAG|||P_FLAG, X_FLAG|||P_FLAG, X_FLAG, X_FLAG|||P_FLAG, X_FLAG, X_FLAG, X_FLAG|||P_FLAG,
  Y_FLAG|||P_FLAG, Y_FLAG, Y_FLAG, Y_FLAG|||P_FLAG, Y_FLAG, Y_FLAG|||P_FLAG, Y_FLAG|||P_FLAG, Y_FLAG,
  Y_FLAG|||X_FLAG, Y_FLAG|||X_FLAG|||P_FLAG, Y_FLAG|||X_FLAG|||P_FLAG, Y_FLAG|||X_FLAG, Y_FLAG|||X_FLAG|||P_FLAG, Y_FLAG|||X_FLAG, Y_FLAG|||X_FLAG, Y_FLAG|||X_FLAG|||P_FLAG,
  Y_FLAG, Y_FLAG|||P_FLAG, Y_FLAG|||P_FLAG, Y_FLAG, Y_FLAG|||P_FLAG, Y_FLAG, Y_FLAG, Y_FLAG|||P_FLAG,
  Y_FLAG|||X_FLAG|||P_FLAG, Y_FLAG|||X_FLAG, Y_FLAG|||X_FLAG, Y_FLAG|||X_FLAG|||P_FLAG, Y_FLAG|||X_FLAG, Y_FLAG|||X_FLAG|||P_FLAG, Y_FLAG|||X_FLAG|||P_FLAG, Y_FLAG|||X_FLAG,
  S_FLAG, S_FLAG|||P_FLAG, S_FLAG|||P_FLAG, S_FLAG, S_FLAG|||P_FLAG, S_FLAG, S_FLAG, S_FLAG|||P_FLAG,
  S_FLAG|||X_FLAG|||P_FLAG, S_FLAG|||X_FLAG, S_FLAG|||X_FLAG, S_FLAG|||X_FLAG|||P_FLAG, S_FLAG|||X_FLAG, S_FLAG|||X_FLAG|||P_FLAG, S_FLAG|||X_FLAG|||P_FLAG, S_FLAG|||X_FLAG,
  S_FLAG|||P_FLAG, S_FLAG, S_FLAG, S_FLAG|||P_FLAG, S_FLAG, S_FLAG|||P_FLAG, S_FLAG|||P_FLAG, S_FLAG,
  S_FLAG|||X_FLAG, S_FLAG|||X_FLAG|||P_FLAG, S_FLAG|||X_FLAG|||P_FLAG, S_FLAG|||X_FLAG, S_FLAG|||X_FLAG|||P_FLAG, S_FLAG|||X_FLAG, S_FLAG|||X_FLAG, S_FLAG|||X_FLAG|||P_FLAG,
  S_FLAG|||Y_FLAG|||P_FLAG, S_FLAG|||Y_FLAG, S_FLAG|||Y_FLAG, S_FLAG|||Y_FLAG|||P_FLAG, S_FLAG|||Y_FLAG, S_FLAG|||Y_FLAG|||P_FLAG, S_FLAG|||Y_FLAG|||P_FLAG, S_FLAG|||Y_FLAG,
  S_FLAG|||Y_FLAG|||X_FLAG, S_FLAG|||Y_FLAG|||X_FLAG|||P_FLAG, S_FLAG|||Y_FLAG|||X_FLAG|||P_FLAG, S_FLAG|||Y_FLAG|||X_FLAG, S_FLAG|||Y_FLAG|||X_FLAG|||P_FLAG, S_FLAG|||Y_FLAG|||X_FLAG, S_FLAG|||Y_FLAG|||X_FLAG, S_FLAG|||Y_FLAG|||X_FLAG|||P_FLAG,
  S_FLAG|||Y_FLAG, S_FLAG|||Y_FLAG|||P_FLAG, S_FLAG|||Y_FLAG|||P_FLAG, S_FLAG|||Y_FLAG, S_FLAG|||Y_FLAG|||P_FLAG, S_FLAG|||Y_FLAG, S_FLAG|||Y_FLAG, S_FLAG|||Y_FLAG|||P_FLAG,
  S_FLAG|||Y_FLAG|||X_FLAG|||P_FLAG, S_FLAG|||Y_FLAG|||X_FLAG, S_FLAG|||Y_FLAG|||X_FLAG, S_FLAG|||Y_FLAG|||X_FLAG|||P_FLAG, S_FLAG|||Y_FLAG|||X_FLAG, S_FLAG|||Y_FLAG|||X_FLAG|||P_FLAG, S_FLAG|||Y_FLAG|||X_FLAG|||P_FLAG, S_FLAG|||Y_FLAG|||X_FLAG,
  S_FLAG|||P_FLAG, S_FLAG, S_FLAG, S_FLAG|||P_FLAG, S_FLAG, S_FLAG|||P_FLAG, S_FLAG|||P_FLAG, S_FLAG,
  S_FLAG|||X_FLAG, S_FLAG|||X_FLAG|||P_FLAG, S_FLAG|||X_FLAG|||P_FLAG, S_FLAG|||X_FLAG, S_FLAG|||X_FLAG|||P_FLAG, S_FLAG|||X_FLAG, S_FLAG|||X_FLAG, S_FLAG|||X_FLAG|||P_FLAG,
  S_FLAG, S_FLAG|||P_FLAG, S_FLAG|||P_FLAG, S_FLAG, S_FLAG|||P_FLAG, S_FLAG, S_FLAG, S_FLAG|||P_FLAG,
  S_FLAG|||X_FLAG|||P_FLAG, S_FLAG|||X_FLAG, S_FLAG|||X_FLAG, S_FLAG|||X_FLAG|||P_FLAG, S_FLAG|||X_FLAG, S_FLAG|||X_FLAG|||P_FLAG, S_FLAG|||X_FLAG|||P_FLAG, S_FLAG|||X_FLAG,
  S_FLAG|||Y_FLAG, S_FLAG|||Y_FLAG|||P_FLAG, S_FLAG|||Y_FLAG|||P_FLAG, S_FLAG|||Y_FLAG, S_FLAG|||Y_FLAG|||P_FLAG, S_FLAG|||Y_FLAG, S_FLAG|||Y_FLAG, S_FLAG|||Y_FLAG|||P_FLAG,
  S_FLAG|||Y_FLAG|||X_FLAG|||P_FLAG, S_FLAG|||Y_FLAG|||X_FLAG, S_FLAG|||Y_FLAG|||X_FLAG, S_FLAG|||Y_FLAG|||X_FLAG|||P_FLAG, S_FLAG|||Y_FLAG|||X_FLAG, S_FLAG|||Y_FLAG|||X_FLAG|||P_FLAG, S_FLAG|||Y_FLAG|||X_FLAG|||P_FLAG, S_FLAG|||Y_FLAG|||X_FLAG,
  S_FLAG|||Y_FLAG|||P_FLAG, S_FLAG|||Y_FLAG, S_FLAG|||Y_FLAG, S_FLAG|||Y_FLAG|||P_FLAG, S_FLAG|||Y_FLAG, S_FLAG|||Y_FLAG|||P_FLAG, S_FLAG|||Y_FLAG|||P_FLAG, S_FLAG|||Y_FLAG,
  S_FLAG|||Y_FLAG|||X_FLAG, S_FLAG|||Y_FLAG|||X_FLAG|||P_FLAG, S_FLAG|||Y_FLAG|||X_FLAG|||P_FLAG, S_FLAG|||Y_FLAG|||X_FLAG, S_FLAG|||Y_FLAG|||X_FLAG|||P_FLAG, S_FLAG|||Y_FLAG|||X_FLAG, S_FLAG|||Y_FLAG|||X_FLAG, S_FLAG|||Y_FLAG|||X_FLAG|||P_FLAG]

/-- Transcribed from simglb.c: precompiled table to get parity as fast as
possible (1 = odd number of one bits). -/
def parity : List Nat := [
  0, 1, 1, 0, 1, 0, 0, 1, 1, 0, 0, 1, 0, 1, 1, 0,
  1, 0, 0, 1, 0, 1, 1, 0, 0, 1, 1, 0, 1, 0, 0, 1,
  1, 0, 0, 1, 0, 1, 1, 0, 0, 1, 1, 0, 1, 0, 0, 1,
  0, 1, 1, 0, 1, 0, 0, 1, 1, 0, 0, 1, 0, 1, 1, 0,
  1, 0, 0, 1, 0, 1, 1, 0, 0, 1, 1, 0, 1, 0, 0, 1,
  0, 1, 1, 0, 1, 0, 0, 1, 1, 0, 0, 1, 0, 1, 1, 0,
  0, 1, 1, 0, 1, 0, 0, 1, 1, 0, 0, 1, 0, 1, 1, 0,
  1, 0, 0, 1, 0, 1, 1, 0, 0, 1, 1, 0, 1, 0, 0, 1,
  1, 0, 0, 1, 0, 1, 1, 0, 0, 1, 1, 0, 1, 0, 0, 1,
  0, 1, 1, 0, 1, 0, 0, 1, 1, 0, 0, 1, 0, 1, 1, 0,
  0, 1, 1, 0, 1, 0, 0, 1, 1, 0, 0, 1, 0, 1, 1, 0,
  1, 0, 0, 1, 0, 1, 1, 0, 0, 1, 1, 0, 1, 0, 0, 1,
  0, 1, 1, 0, 1, 0, 0, 1, 1, 0, 0, 1, 0, 1, 1, 0,
  1, 0, 0, 1, 0, 1, 1, 0, 0, 1, 1, 0, 1, 0, 0, 1,
  1, 0, 0, 1, 0, 1, 1, 0, 0, 1, 1, 0, 1, 0, 0, 1,
  0, 1, 1, 0, 1, 0, 0, 1, 1, 0, 0, 1, 0, 1, 1, 0]

/-- Number of one bits among the low 8 bits of n (the claims speak of
8-bit values, so 8 bit positions suffice). -/
def popcount8 (n : Nat) : Nat := (List.range 8).countP (fun i => n.testBit i)

/-- C1: for every 8-bit value r, szp_flags[r] has Z set iff r = 0, S set
iff bit 7 of r is 1, P set iff r has an even number of one bits, and no
bits outside {S, Z, P} are set. -/
theorem szp_flags_correct : forall r : Fin 256,
    ((szp_flags.getD r.val 0).testBit 6 = true <-> r.val = 0) /\
    ((szp_flags.getD r.val 0).testBit 7 = true <-> Nat.testBit r.val 7 = true) /\
    ((szp_flags.getD r.val 0).testBit 2 = true <-> popcount8 r.val % 2 = 0) /\
    (szp_flags.getD r.val 0) &&& (S_FLAG ||| Z_FLAG ||| P_FLAG) = szp_flags.getD r.val 0 := by
  decide

/-- C2: for every byte b, szyx_flags[b] and szyxp_flags[b] have Y set iff
bit 5 of b is 1 and X set iff bit 3 of b is 1. -/
theorem szyx_szyxp_flags_yx_correct : forall b : Fin 256,
    ((szyx_flags.getD b.val 0).testBit 5 = Nat.testBit b.val 5) /\
    ((szyx_flags.getD b.val 0).testBit 3 = Nat.testBit b.val 3) /\
    ((szyxp_flags.getD b.val 0).testBit 5 = Nat.testBit b.val 5) /\
    ((szyxp_flags.getD b.val 0).testBit 3 = Nat.testBit b.val 3) := by
  decide

/-- CPU model tag (simglb.c: `int cpu`, values Z80 / I8080). -/
inductive CpuModel where
  | Z80
  | I8080
deriving DecidableEq

/-- Modelled from the spec: the numeric cpu_state values live in a header
not under src/; spec section 4.8 lists the states
{ContinRun, SingleStep, Stopped, ModelSwitch, Reset}. -/
inductive CpuState where
  | STOPPED
  | CONTIN_RUN
  | SINGLE_STEP
  | MODEL_SWITCH
  | RESET
deriving DecidableEq

/-- Modelled from the spec: the cpu_error kinds are listed in spec
section 7 (their numeric encoding lives in a header not under src/). -/
inductive CpuError where
  | NONE
  | OPHALT
  | OPTRAP1
  | OPTRAP2
  | OPTRAP4
  | IOTRAPIN
  | IOTRAPOUT
  | IOHALT
  | IOERROR
  | USERINT
  | INTERROR
  | POWEROFF
deriving DecidableEq

/-- Modelled from the spec: DMA bus modes (BusDMA_t); the spec gives
bus_mode as one of {None, Read, Write, ReadWrite}. -/
inductive BusDMA where
  | BUS_DMA_NONE
  | BUS_DMA_READ
  | BUS_DMA_WRITE
  | BUS_DMA_READWRITE
deriving DecidableEq

/-- Modelled from the frontpanel callbacks used in the source: a panel
switch reports up, down, or centre position. -/
inductive FpSwitch where
  | FP_SW_UP
  | FP_SW_DOWN
  | FP_SW_CENTER
deriving DecidableEq

/-- The process-wide mutable CPU/simulator state of simglb.c gathered
into one record.  8-bit registers (BYTE) and 16-bit registers (WORD)
are Nat values; F, the interrupt scalars and power are kept at the C
types (int / int / int), with int_data an Int because -1 is its
no-data sentinel.  mem stands for the 64 KiB memory behind
getmem/putmem. -/
structure State where
  cpu : CpuModel
  A : Nat
  B : Nat
  C : Nat
  D : Nat
  E : Nat
  H : Nat
  L : Nat
  F : Nat
  IX : Nat
  IY : Nat
  WZ : Nat
  A_ : Nat
  B_ : Nat
  C_ : Nat
  D_ : Nat
  E_ : Nat
  H_ : Nat
  L_ : Nat
  F_ : Nat
  I : Nat
  R : Nat
  R_ : Nat
  PC : Nat
  SP : Nat
  IFF : Nat
  T : Nat
  cpu_bus : Nat
  cpu_state : CpuState
  cpu_error : CpuError
  int_mode : Nat
  int_nmi : Nat
  int_int : Nat
  int_data : Int
  int_protection : Nat
  bus_request : Nat
  bus_mode : BusDMA
  dma_bus_master : Option (Nat → Nat)
  power : Int
  cpu_switch : Nat
  fp_led_address : Nat
  fp_led_data : Nat
  fp_led_speed : Nat
  fp_led_wait : Nat
  fp_led_output : Nat
  address_switch : Nat
  f_flag : Nat
  mem : Nat → Nat

/-- C's `f &= ~m` on a non-negative int: clear in f every bit set in m
(Nat.ldiff is exactly bitwise and-not). -/
def clearBits (f m : Nat) : Nat := Nat.ldiff f m

/-- simcore.c init_cpu: PC := 0, then SP, A, B, C, D, E, H, L, F and the
Z80-only registers are drawn from successive rand() calls (rands k is
the value of the k-th rand() call, in source order); I := 0; finally,
when the selected model is I8080, F is masked to Y=0, X=0, N=1. -/
def init_cpu (rands : Nat → Nat) (s : State) : State :=
  let s1 := { s with
    PC := 0
    SP := rands 0 % 65536
    A := rands 1 % 256
    B := rands 2 % 256
    C := rands 3 % 256
    D := rands 4 % 256
    E := rands 5 % 256
    H := rands 6 % 256
    L := rands 7 % 256
    F := rands 8 % 256
    I := 0
    A_ := rands 9 % 256
    B_ := rands 10 % 256
    C_ := rands 11 % 256
    D_ := rands 12 % 256
    E_ := rands 13 % 256
    H_ := rands 14 % 256
    L_ := rands 15 % 256
    F_ := rands 16 % 256
    IX := rands 17 % 65536
    IY := rands 18 % 65536
    WZ := rands 19 % 65536 }
  if s1.cpu = CpuModel.I8080 then
    { s1 with F := clearBits s1.F (Y_FLAG ||| X_FLAG) ||| N_FLAG }
  else s1

/-- simcore.c reset_cpu: IFF = int_int = int_protection = 0,
int_data = -1, PC = 0, and (Z80 support compiled in, so
unconditionally) I = 0, R_ = R = 0, int_nmi = int_mode = 0. -/
def reset_cpu (s : State) : State :=
  { s with
    IFF := 0
    int_int := 0
    int_protection := 0
    int_data := -1
    PC := 0
    I := 0
    R_ := 0
    R := 0
    int_nmi := 0
    int_mode := 0 }

/-- simcore.c switch_cpu: only acts when the model actually changes;
switching to I8080 masks F to Y=0, X=0, N=1; in every changing case the
model tag is updated and cpu_state is set to MODEL_SWITCH. -/
def switch_cpu (new_cpu : CpuModel) (s : State) : State :=
  if s.cpu = new_cpu then s
  else
    let s1 :=
      match new_cpu with
      | CpuModel.Z80 => s
      | CpuModel.I8080 =>
          { s with F := clearBits s.F (Y_FLAG ||| X_FLAG) ||| N_FLAG }
    { s1 with cpu := new_cpu, cpu_state := CpuState.MODEL_SWITCH }

/-- simcore.c run_cpu's inner loop: dispatch on the current model's
executor (cpu_z80/cpu_8080 are not under src/, so the executor is a
parameter keyed by the model tag); if the executor left cpu_state at
MODEL_SWITCH, set it back to CONTIN_RUN and loop, else return.  fuel
bounds the number of iterations of the unbounded C for(;;). -/
def run_loop (exec : CpuModel → State → State) : Nat → State → State
  | 0, s => s
  | fuel + 1, s =>
      let s1 := exec s.cpu s
      if s1.cpu_state = CpuState.MODEL_SWITCH then
        run_loop exec fuel { s1 with cpu_state := CpuState.CONTIN_RUN }
      else s1

/-- simcore.c run_cpu: cpu_state := CONTIN_RUN, cpu_error := NONE, then
the dispatch loop. -/
def run_cpu (exec : CpuModel → State → State) (fuel : Nat) (s : State) :
    State :=
  run_loop exec fuel
    { s with cpu_state := CpuState.CONTIN_RUN, cpu_error := CpuError.NONE }

/-- simcore.c start_bus_request. -/
def start_bus_request (mode : BusDMA) (bus_master : Nat → Nat)
    (s : State) : State :=
  { s with
    bus_mode := mode
    dma_bus_master := some bus_master
    bus_request := 1 }

/-- simcore.c end_bus_request. -/
def end_bus_request (s : State) : State :=
  { s with
    bus_mode := BusDMA.BUS_DMA_NONE
    dma_bus_master := none
    bus_request := 0 }

/-- Modelled from the spec: the bus-status byte flag values live in a
header not under src/; the spec lists {M1, MEMR, MEMW, INP, OUT, HLTA,
INTA, WO}, the classic 8080 status-byte layout. -/
def CPU_MEMR : Nat := 128

def CPU_INP : Nat := 64

def CPU_M1 : Nat := 32

def CPU_OUT : Nat := 16

def CPU_HLTA : Nat := 8

def CPU_STACK : Nat := 4

def CPU_WO : Nat := 2

def CPU_INTA : Nat := 1

/-- Memory read used by the front panel (the memory module keeps a
64 KiB space behind getmem). -/
def getmem (s : State) (addr : Nat) : Nat := s.mem (addr % 65536)

/-- Cromemco Z-1 front-panel POWER switch callback (power_clicked):
switch up powers on (only when off) and initializes the panel lights;
switch down powers off (only when on), clearing cpu_switch and setting
cpu_state = STOPPED, cpu_error = POWEROFF.  Terminal output is host
I/O and has no simulator-state effect. -/
def power_clicked (state : FpSwitch) (s : State) : State :=
  match state with
  | FpSwitch.FP_SW_UP =>
      if s.power ≠ 0 then s
      else
        { s with
          power := s.power + 1
          cpu_bus := CPU_WO ||| CPU_M1 ||| CPU_MEMR
          fp_led_address := s.PC
          fp_led_data := getmem s s.PC
          fp_led_speed := if s.f_flag = 0 ∨ 4 ≤ s.f_flag then 1 else 0
          fp_led_wait := 1
          fp_led_output := 0 }
  | FpSwitch.FP_SW_DOWN =>
      if s.power = 0 then s
      else
        { s with
          power := s.power - 1
          cpu_switch := 0
          cpu_state := CpuState.STOPPED
          cpu_error := CpuError.POWEROFF }
  | FpSwitch.FP_SW_CENTER => s

/-- Front-panel quit callback (graphics window closed): power off
unconditionally with cpu_state = STOPPED and cpu_error = POWEROFF. -/
def quit_callback (s : State) : State :=
  { s with
    power := s.power - 1
    cpu_switch := 0
    cpu_state := CpuState.STOPPED
    cpu_error := CpuError.POWEROFF }

/-- Modelled from the spec: the per-instruction flag update of the
I8080 executor (sim8080.c is not under src/).  Spec section 4.5: after
arithmetic on the I8080, F.N := 1, F.Y := 0, F.X := 0, F.H per
half-carry, F.C per carry, and S/Z/P from the szp table of the result
byte. -/
def i8080_flags_after_op (res : Nat) (hc cy : Bool) : Nat :=
  szp_flags.getD (res % 256) 0 ||| N_FLAG |||
    (if hc then H_FLAG else 0) ||| (if cy then C_FLAG else 0)

/-- The I8080 forced-flag condition on an F value: N (bit 1) set,
Y (bit 5) and X (bit 3) clear. -/
def i8080ForcedFlags (f : Nat) : Prop :=
  f.testBit 1 = true ∧ f.testBit 5 = false ∧ f.testBit 3 = false

/-- A concrete powered-off Z80 state used to instantiate theorems. -/
def sInit : State :=
  { cpu := CpuModel.Z80
    A := 0, B := 0, C := 0, D := 0, E := 0, H := 0, L := 0, F := 0
    IX := 0, IY := 0, WZ := 0
    A_ := 0, B_ := 0, C_ := 0, D_ := 0, E_ := 0, H_ := 0, L_ := 0
    F_ := 0
    I := 0, R := 0, R_ := 0
    PC := 0, SP := 0, IFF := 0, T := 0
    cpu_bus := 0
    cpu_state := CpuState.STOPPED
    cpu_error := CpuError.NONE
    int_mode := 0, int_nmi := 0, int_int := 0, int_data := -1
    int_protection := 0
    bus_request := 0
    bus_mode := BusDMA.BUS_DMA_NONE
    dma_bus_master := none
    power := 0
    cpu_switch := 0
    fp_led_address := 0, fp_led_data := 0, fp_led_speed := 0
    fp_led_wait := 0, fp_led_output := 0
    address_switch := 0
    f_flag := 0
    mem := fun _ => 0 }

instance (f : Nat) : Decidable (i8080ForcedFlags f) :=
  inferInstanceAs (Decidable (_ ∧ _ ∧ _))

lemma forcedFlags_mask (f : Nat) :
    i8080ForcedFlags (clearBits f (Y_FLAG ||| X_FLAG) ||| N_FLAG) := by
  unfold i8080ForcedFlags clearBits
  refine ⟨?_, ?_, ?_⟩
  · rw [Nat.testBit_lor]
    simp [show Nat.testBit N_FLAG 1 = true from by decide]
  · rw [Nat.testBit_lor, Nat.testBit_ldiff]
    simp [show Nat.testBit (Y_FLAG ||| X_FLAG) 5 = true from by decide,
          show Nat.testBit N_FLAG 5 = false from by decide]
  · rw [Nat.testBit_lor, Nat.testBit_ldiff]
    simp [show Nat.testBit (Y_FLAG ||| X_FLAG) 3 = true from by decide,
          show Nat.testBit N_FLAG 3 = false from by decide]

lemma maskF_testBit (f i : Nat) (h1 : i ≠ 1) (h3 : i ≠ 3) (h5 : i ≠ 5) :
    (clearBits f (Y_FLAG ||| X_FLAG) ||| N_FLAG).testBit i = f.testBit i := by
  unfold clearBits
  rw [Nat.testBit_lor, Nat.testBit_ldiff]
  have hyx : Nat.testBit (Y_FLAG ||| X_FLAG) i = false := by
    rcases Nat.lt_or_ge i 6 with hlt | hge
    · interval_cases i <;> first | decide | simp_all
    · exact Nat.testBit_eq_false_of_lt
        (lt_of_lt_of_le (by decide) (Nat.pow_le_pow_right (by decide) hge))
  have hn : Nat.testBit N_FLAG i = false := by
    rcases Nat.lt_or_ge i 2 with hlt | hge
    · interval_cases i <;> first | decide | simp_all
    · exact Nat.testBit_eq_false_of_lt
        (lt_of_lt_of_le (by decide) (Nat.pow_le_pow_right (by decide) hge))
  rw [hyx, hn]
  simp

/-- C3: on the I8080 model the flag register always has N = 1, Y = 0,
X = 0: it holds after power-on initialization (init_cpu), a model
switch establishes it when switching to I8080 and preserves it
otherwise, and the (spec-modelled) I8080 per-instruction flag update
re-establishes it after every executed instruction. -/
theorem i8080_flags_forced_invariant :
    (∀ rands s, s.cpu = CpuModel.I8080 →
       i8080ForcedFlags (init_cpu rands s).F) ∧
    (∀ new_cpu s, (s.cpu = CpuModel.I8080 → i8080ForcedFlags s.F) →
       (switch_cpu new_cpu s).cpu = CpuModel.I8080 →
       i8080ForcedFlags (switch_cpu new_cpu s).F) ∧
    (∀ res hc cy, i8080ForcedFlags (i8080_flags_after_op res hc cy)) := by
  refine ⟨?_, ?_, ?_⟩
  · intro rands s h
    simp only [init_cpu]
    split
    · exact forcedFlags_mask _
    · rename_i hne
      exact absurd h hne
  · intro new_cpu s hInv hcpu
    by_cases he : s.cpu = new_cpu
    · have hs : switch_cpu new_cpu s = s := by simp [switch_cpu, he]
      rw [hs] at hcpu ⊢
      exact hInv hcpu
    · cases new_cpu with
      | Z80 =>
          have hz : (switch_cpu CpuModel.Z80 s).cpu = CpuModel.Z80 := by
            simp [switch_cpu, he]
          rw [hz] at hcpu
          exact absurd hcpu (by decide)
      | I8080 =>
          have hF : (switch_cpu CpuModel.I8080 s).F =
              clearBits s.F (Y_FLAG ||| X_FLAG) ||| N_FLAG := by
            simp [switch_cpu, he]
          rw [hF]
          exact forcedFlags_mask _
  · intro res hc cy
    have key : ∀ (r : Fin 256) (b1 b2 : Bool),
        i8080ForcedFlags (i8080_flags_after_op r.val b1 b2) := by decide
    have hmod : i8080_flags_after_op res hc cy =
        i8080_flags_after_op (res % 256) hc cy := by
      unfold i8080_flags_after_op
      rw [Nat.mod_mod_of_dvd res dvd_rfl]
    rw [hmod]
    exact key ⟨res % 256, Nat.mod_lt _ (by decide)⟩ hc cy

/-- Witness for i8080_flags_forced_invariant at concrete inputs. -/
theorem i8080_flags_forced_invariant_witness :
    i8080ForcedFlags
      (init_cpu (fun _ => 0) { sInit with cpu := CpuModel.I8080 }).F ∧
    i8080ForcedFlags (switch_cpu CpuModel.I8080 sInit).F ∧
    i8080ForcedFlags (i8080_flags_after_op 0 false false) :=
  ⟨i8080_flags_forced_invariant.1 (fun _ => 0)
      { sInit with cpu := CpuModel.I8080 } rfl,
   i8080_flags_forced_invariant.2.1 CpuModel.I8080 sInit
      (fun h => nomatch h) (by decide),
   i8080_flags_forced_invariant.2.2 0 false false⟩

/-- C4: reset_cpu clears IFF, the pending maskable-interrupt request
int_int, the EI-delay protection int_protection, sets the interrupt
data byte int_data to -1 (its cleared, no-data value), forces PC to 0,
and (unconditionally in a build with Z80 support, hence in particular
on the Z80 model) resets I, R, the R7 latch R_, the NMI request and
the interrupt mode to 0. -/
theorem reset_cpu_correct : ∀ s : State,
    (reset_cpu s).IFF = 0 ∧ (reset_cpu s).int_int = 0 ∧
    (reset_cpu s).int_protection = 0 ∧ (reset_cpu s).int_data = -1 ∧
    (reset_cpu s).PC = 0 ∧
    ((reset_cpu s).cpu = CpuModel.Z80 →
      (reset_cpu s).I = 0 ∧ (reset_cpu s).R = 0 ∧
      (reset_cpu s).R_ = 0 ∧ (reset_cpu s).int_nmi = 0 ∧
      (reset_cpu s).int_mode = 0) :=
  fun _ => ⟨rfl, rfl, rfl, rfl, rfl,
    fun _ => ⟨rfl, rfl, rfl, rfl, rfl⟩⟩

/-- Witness for reset_cpu_correct on a concrete Z80 state. -/
theorem reset_cpu_correct_witness :
    (reset_cpu sInit).IFF = 0 ∧ (reset_cpu sInit).int_int = 0 ∧
    (reset_cpu sInit).int_protection = 0 ∧
    (reset_cpu sInit).int_data = -1 ∧ (reset_cpu sInit).PC = 0 ∧
    ((reset_cpu sInit).I = 0 ∧ (reset_cpu sInit).R = 0 ∧
      (reset_cpu sInit).R_ = 0 ∧ (reset_cpu sInit).int_nmi = 0 ∧
      (reset_cpu sInit).int_mode = 0) :=
  ⟨(reset_cpu_correct sInit).1, (reset_cpu_correct sInit).2.1,
   (reset_cpu_correct sInit).2.2.1, (reset_cpu_correct sInit).2.2.2.1,
   (reset_cpu_correct sInit).2.2.2.2.1,
   (reset_cpu_correct sInit).2.2.2.2.2 rfl⟩

/-- C5 counterexample: init_cpu never assigns IFF, so from a state
with IFF = 1 power-on initialization leaves IFF = 1, refuting the
claim that init_cpu sets IFF to 0. -/
theorem init_cpu_not_set_IFF :
    (init_cpu (fun _ => 0) { sInit with IFF := 1 }).IFF ≠ 0 := by decide

/-- C5 amended: init_cpu sets PC to 0 and I to 0, assigns SP, A, B, C,
D, E, H, L, F, the alternate registers, IX, IY and WZ values drawn
from successive rand() calls (on I8080, F is additionally masked to
N=1, Y=0, X=0), and leaves IFF and R unchanged (IFF is 0 at power-on
only because C globals start at zero). -/
theorem init_cpu_characterization : ∀ (rands : Nat → Nat) (s : State),
    (init_cpu rands s).PC = 0 ∧
    (init_cpu rands s).I = 0 ∧
    (init_cpu rands s).IFF = s.IFF ∧
    (init_cpu rands s).R = s.R ∧
    (init_cpu rands s).R_ = s.R_ ∧
    (init_cpu rands s).SP = rands 0 % 65536 ∧
    (init_cpu rands s).A = rands 1 % 256 ∧
    (init_cpu rands s).B = rands 2 % 256 ∧
    (init_cpu rands s).C = rands 3 % 256 ∧
    (init_cpu rands s).D = rands 4 % 256 ∧
    (init_cpu rands s).E = rands 5 % 256 ∧
    (init_cpu rands s).H = rands 6 % 256 ∧
    (init_cpu rands s).L = rands 7 % 256 ∧
    (init_cpu rands s).A_ = rands 9 % 256 ∧
    (init_cpu rands s).B_ = rands 10 % 256 ∧
    (init_cpu rands s).C_ = rands 11 % 256 ∧
    (init_cpu rands s).D_ = rands 12 % 256 ∧
    (init_cpu rands s).E_ = rands 13 % 256 ∧
    (init_cpu rands s).H_ = rands 14 % 256 ∧
    (init_cpu rands s).L_ = rands 15 % 256 ∧
    (init_cpu rands s).F_ = rands 16 % 256 ∧
    (init_cpu rands s).IX = rands 17 % 65536 ∧
    (init_cpu rands s).IY = rands 18 % 65536 ∧
    (init_cpu rands s).WZ = rands 19 % 65536 ∧
    (s.cpu = CpuModel.Z80 → (init_cpu rands s).F = rands 8 % 256) ∧
    (s.cpu = CpuModel.I8080 →
      (init_cpu rands s).F =
        clearBits (rands 8 % 256) (Y_FLAG ||| X_FLAG) ||| N_FLAG) := by
  intro rands s
  by_cases h : s.cpu = CpuModel.I8080 <;>
    simp [init_cpu, h]

/-- Witness for init_cpu_characterization on concrete inputs. -/
theorem init_cpu_characterization_witness :
    (init_cpu (fun k => k) sInit).PC = 0 ∧
    (init_cpu (fun k => k) sInit).IFF = sInit.IFF ∧
    (init_cpu (fun k => k) sInit).F = (fun k => k) 8 % 256 ∧
    (init_cpu (fun k => k) { sInit with cpu := CpuModel.I8080 }).F =
      clearBits ((fun k => k) 8 % 256) (Y_FLAG ||| X_FLAG) ||| N_FLAG :=
  ⟨(init_cpu_characterization (fun k => k) sInit).1,
   (init_cpu_characterization (fun k => k) sInit).2.2.1,
   (init_cpu_characterization (fun k => k) sInit).2.2.2.2.2.2.2.2.2.2.2.2.2.2.2.2.2.2.2.2.2.2.2.2.1 rfl,
   (init_cpu_characterization (fun k => k)
      { sInit with cpu := CpuModel.I8080 }).2.2.2.2.2.2.2.2.2.2.2.2.2.2.2.2.2.2.2.2.2.2.2.2.2 rfl⟩

/-- C6: switch_cpu leaves every register and state component other
than the F flag bits {N, Y, X}, the model tag and cpu_state
unchanged; bits of F outside {N (bit 1), X (bit 3), Y (bit 5)} are
preserved, and an actual switch to I8080 forces N=1, Y=0, X=0. -/
theorem switch_cpu_frame : ∀ (new_cpu : CpuModel) (s : State),
    (switch_cpu new_cpu s).A = s.A ∧
    (switch_cpu new_cpu s).B = s.B ∧
    (switch_cpu new_cpu s).C = s.C ∧
    (switch_cpu new_cpu s).D = s.D ∧
    (switch_cpu new_cpu s).E = s.E ∧
    (switch_cpu new_cpu s).H = s.H ∧
    (switch_cpu new_cpu s).L = s.L ∧
    (switch_cpu new_cpu s).IX = s.IX ∧
    (switch_cpu new_cpu s).IY = s.IY ∧
    (switch_cpu new_cpu s).WZ = s.WZ ∧
    (switch_cpu new_cpu s).A_ = s.A_ ∧
    (switch_cpu new_cpu s).B_ = s.B_ ∧
    (switch_cpu new_cpu s).C_ = s.C_ ∧
    (switch_cpu new_cpu s).D_ = s.D_ ∧
    (switch_cpu new_cpu s).E_ = s.E_ ∧
    (switch_cpu new_cpu s).H_ = s.H_ ∧
    (switch_cpu new_cpu s).L_ = s.L_ ∧
    (switch_cpu new_cpu s).F_ = s.F_ ∧
    (switch_cpu new_cpu s).I = s.I ∧
    (switch_cpu new_cpu s).R = s.R ∧
    (switch_cpu new_cpu s).R_ = s.R_ ∧
    (switch_cpu new_cpu s).PC = s.PC ∧
    (switch_cpu new_cpu s).SP = s.SP ∧
    (switch_cpu new_cpu s).IFF = s.IFF ∧
    (switch_cpu new_cpu s).T = s.T ∧
    (switch_cpu new_cpu s).cpu_bus = s.cpu_bus ∧
    (switch_cpu new_cpu s).cpu_error = s.cpu_error ∧
    (switch_cpu new_cpu s).int_mode = s.int_mode ∧
    (switch_cpu new_cpu s).int_nmi = s.int_nmi ∧
    (switch_cpu new_cpu s).int_int = s.int_int ∧
    (switch_cpu new_cpu s).int_data = s.int_data ∧
    (switch_cpu new_cpu s).int_protection = s.int_protection ∧
    (switch_cpu new_cpu s).bus_request = s.bus_request ∧
    (switch_cpu new_cpu s).bus_mode = s.bus_mode ∧
    (switch_cpu new_cpu s).dma_bus_master = s.dma_bus_master ∧
    (switch_cpu new_cpu s).power = s.power ∧
    (switch_cpu new_cpu s).cpu_switch = s.cpu_switch ∧
    (switch_cpu new_cpu s).fp_led_address = s.fp_led_address ∧
    (switch_cpu new_cpu s).fp_led_data = s.fp_led_data ∧
    (switch_cpu new_cpu s).fp_led_speed = s.fp_led_speed ∧
    (switch_cpu new_cpu s).fp_led_wait = s.fp_led_wait ∧
    (switch_cpu new_cpu s).fp_led_output = s.fp_led_output ∧
    (switch_cpu new_cpu s).address_switch = s.address_switch ∧
    (switch_cpu new_cpu s).f_flag = s.f_flag ∧
    (switch_cpu new_cpu s).mem = s.mem ∧
    (∀ i, i ≠ 1 → i ≠ 3 → i ≠ 5 →
      ((switch_cpu new_cpu s).F).testBit i = s.F.testBit i) ∧
    ((new_cpu = CpuModel.I8080 ∧ s.cpu ≠ CpuModel.I8080) →
      i8080ForcedFlags (switch_cpu new_cpu s).F) := by
  intro new_cpu s
  by_cases he : s.cpu = new_cpu
  · have hs : switch_cpu new_cpu s = s := by simp [switch_cpu, he]
    rw [hs]
    exact ⟨rfl, rfl, rfl, rfl, rfl, rfl, rfl, rfl, rfl, rfl, rfl, rfl, rfl, rfl, rfl, rfl, rfl, rfl, rfl, rfl, rfl, rfl, rfl, rfl, rfl, rfl, rfl, rfl, rfl, rfl, rfl, rfl, rfl, rfl, rfl, rfl, rfl, rfl, rfl, rfl, rfl, rfl, rfl, rfl, rfl, fun i _ _ _ => rfl,
      fun hh => absurd (he.trans hh.1) hh.2⟩
  · cases new_cpu with
    | Z80 =>
        have hs : switch_cpu CpuModel.Z80 s =
            { s with cpu := CpuModel.Z80,
                      cpu_state := CpuState.MODEL_SWITCH } := by
          simp [switch_cpu, he]
        rw [hs]
        exact ⟨rfl, rfl, rfl, rfl, rfl, rfl, rfl, rfl, rfl, rfl, rfl, rfl, rfl, rfl, rfl, rfl, rfl, rfl, rfl, rfl, rfl, rfl, rfl, rfl, rfl, rfl, rfl, rfl, rfl, rfl, rfl, rfl, rfl, rfl, rfl, rfl, rfl, rfl, rfl, rfl, rfl, rfl, rfl, rfl, rfl, fun i _ _ _ => rfl,
          fun hh => absurd hh.1 (by decide)⟩
    | I8080 =>
        have hs : switch_cpu CpuModel.I8080 s =
            { s with F := clearBits s.F (Y_FLAG ||| X_FLAG) ||| N_FLAG,
                      cpu := CpuModel.I8080,
                      cpu_state := CpuState.MODEL_SWITCH } := by
          simp [switch_cpu, he]
        rw [hs]
        exact ⟨rfl, rfl, rfl, rfl, rfl, rfl, rfl, rfl, rfl, rfl, rfl, rfl, rfl, rfl, rfl, rfl, rfl, rfl, rfl, rfl, rfl, rfl, rfl, rfl, rfl, rfl, rfl, rfl, rfl, rfl, rfl, rfl, rfl, rfl, rfl, rfl, rfl, rfl, rfl, rfl, rfl, rfl, rfl, rfl, rfl, fun i h1 h3 h5 => maskF_testBit s.F i h1 h3 h5,
          fun _ => forcedFlags_mask s.F⟩

/-- Witness for switch_cpu_frame: concrete switch from Z80 to I8080. -/
theorem switch_cpu_frame_witness :
    (switch_cpu CpuModel.I8080 sInit).A = sInit.A ∧
    (switch_cpu CpuModel.I8080 sInit).PC = sInit.PC ∧
    ((switch_cpu CpuModel.I8080 sInit).F).testBit 0 =
      sInit.F.testBit 0 ∧
    i8080ForcedFlags (switch_cpu CpuModel.I8080 sInit).F :=
  ⟨(switch_cpu_frame CpuModel.I8080 sInit).1,
   (switch_cpu_frame CpuModel.I8080 sInit).2.2.2.2.2.2.2.2.2.2.2.2.2.2.2.2.2.2.2.2.2.1,
   (switch_cpu_frame CpuModel.I8080 sInit).2.2.2.2.2.2.2.2.2.2.2.2.2.2.2.2.2.2.2.2.2.2.2.2.2.2.2.2.2.2.2.2.2.2.2.2.2.2.2.2.2.2.2.2.2.1 0 (by decide) (by decide) (by decide),
   (switch_cpu_frame CpuModel.I8080 sInit).2.2.2.2.2.2.2.2.2.2.2.2.2.2.2.2.2.2.2.2.2.2.2.2.2.2.2.2.2.2.2.2.2.2.2.2.2.2.2.2.2.2.2.2.2.2 ⟨rfl, by decide⟩⟩

/-- C7: in the run loop, when the executor returns with cpu_state =
MODEL_SWITCH the scheduler sets cpu_state back to CONTIN_RUN and
re-dispatches (the continuation consults the possibly changed model
tag); for any other cpu_state value the loop returns the executor's
final state. -/
theorem run_loop_model_switch_only :
    ∀ (exec : CpuModel → State → State) (fuel : Nat) (s : State),
    ((exec s.cpu s).cpu_state = CpuState.MODEL_SWITCH →
      run_loop exec (fuel + 1) s =
        run_loop exec fuel
          { exec s.cpu s with cpu_state := CpuState.CONTIN_RUN }) ∧
    ((exec s.cpu s).cpu_state ≠ CpuState.MODEL_SWITCH →
      run_loop exec (fuel + 1) s = exec s.cpu s) := by
  intro exec fuel s
  constructor <;> intro h <;> simp [run_loop, h]

/-- An executor that only requests a model switch, and one that only
stops: concrete instantiations for the run-loop theorems. -/
def execSwitch : CpuModel → State → State :=
  fun _ t => { t with cpu_state := CpuState.MODEL_SWITCH }

def execStop : CpuModel → State → State :=
  fun _ t => { t with cpu_state := CpuState.STOPPED }

/-- Witness for run_loop_model_switch_only at concrete executors. -/
theorem run_loop_model_switch_only_witness :
    run_loop execSwitch 1 sInit =
      run_loop execSwitch 0
        { execSwitch sInit.cpu sInit with
            cpu_state := CpuState.CONTIN_RUN } ∧
    run_loop execStop 1 sInit = execStop sInit.cpu sInit :=
  ⟨(run_loop_model_switch_only execSwitch 0 sInit).1 rfl,
   (run_loop_model_switch_only execStop 0 sInit).2 (by decide)⟩

/-- C8: when the front-panel power switch is moved to off while the
machine is powered (or the panel window is closed), the handler sets
cpu_error = POWEROFF and cpu_state = STOPPED, and with cpu_state no
longer MODEL_SWITCH the scheduler loop returns the executor's state at
the next instruction boundary, ending the session with POWEROFF. -/
theorem power_off_stops_runloop : ∀ s : State, s.power ≠ 0 →
    (power_clicked FpSwitch.FP_SW_DOWN s).cpu_error =
      CpuError.POWEROFF ∧
    (power_clicked FpSwitch.FP_SW_DOWN s).cpu_state =
      CpuState.STOPPED ∧
    (quit_callback s).cpu_error = CpuError.POWEROFF ∧
    (quit_callback s).cpu_state = CpuState.STOPPED ∧
    (∀ (exec : CpuModel → State → State) (fuel : Nat) (t : State),
      (exec t.cpu t).cpu_state = CpuState.STOPPED →
      run_loop exec (fuel + 1) t = exec t.cpu t) := by
  intro s hp
  refine ⟨?_, ?_, rfl, rfl, ?_⟩
  · simp [power_clicked, hp]
  · simp [power_clicked, hp]
  · intro exec fuel t ht
    simp [run_loop, ht]

/-- Witness for power_off_stops_runloop on a powered-on state. -/
theorem power_off_stops_runloop_witness :
    (power_clicked FpSwitch.FP_SW_DOWN
        { sInit with power := 1 }).cpu_error = CpuError.POWEROFF ∧
    (power_clicked FpSwitch.FP_SW_DOWN
        { sInit with power := 1 }).cpu_state = CpuState.STOPPED ∧
    (quit_callback { sInit with power := 1 }).cpu_error =
      CpuError.POWEROFF ∧
    (quit_callback { sInit with power := 1 }).cpu_state =
      CpuState.STOPPED ∧
    run_loop execStop 1 sInit = execStop sInit.cpu sInit :=
  ⟨(power_off_stops_runloop { sInit with power := 1 } (by decide)).1,
   (power_off_stops_runloop { sInit with power := 1 } (by decide)).2.1,
   (power_off_stops_runloop { sInit with power := 1 } (by decide)).2.2.1,
   (power_off_stops_runloop { sInit with power := 1 } (by decide)).2.2.2.1,
   (power_off_stops_runloop { sInit with power := 1 } (by decide)).2.2.2.2
     execStop 0 sInit (by decide)⟩

/-- C9: start_bus_request sets bus_mode, dma_bus_master and
bus_request = 1 and changes nothing else; end_bus_request resets them
to BUS_DMA_NONE, none (NULL) and 0 and changes nothing else, so it is
idempotent and releases any pending request regardless of the mode or
callback that was installed. -/
theorem bus_request_fabric_correct :
    ∀ (mode : BusDMA) (cb : Nat → Nat) (s : State),
    (start_bus_request mode cb s).bus_mode = mode ∧
    (start_bus_request mode cb s).dma_bus_master = some cb ∧
    (start_bus_request mode cb s).bus_request = 1 ∧
    (start_bus_request mode cb s).cpu = s.cpu ∧
    (start_bus_request mode cb s).A = s.A ∧
    (start_bus_request mode cb s).B = s.B ∧
    (start_bus_request mode cb s).C = s.C ∧
    (start_bus_request mode cb s).D = s.D ∧
    (start_bus_request mode cb s).E = s.E ∧
    (start_bus_request mode cb s).H = s.H ∧
    (start_bus_request mode cb s).L = s.L ∧
    (start_bus_request mode cb s).F = s.F ∧
    (start_bus_request mode cb s).IX = s.IX ∧
    (start_bus_request mode cb s).IY = s.IY ∧
    (start_bus_request mode cb s).WZ = s.WZ ∧
    (start_bus_request mode cb s).A_ = s.A_ ∧
    (start_bus_request mode cb s).B_ = s.B_ ∧
    (start_bus_request mode cb s).C_ = s.C_ ∧
    (start_bus_request mode cb s).D_ = s.D_ ∧
    (start_bus_request mode cb s).E_ = s.E_ ∧
    (start_bus_request mode cb s).H_ = s.H_ ∧
    (start_bus_request mode cb s).L_ = s.L_ ∧
    (start_bus_request mode cb s).F_ = s.F_ ∧
    (start_bus_request mode cb s).I = s.I ∧
    (start_bus_request mode cb s).R = s.R ∧
    (start_bus_request mode cb s).R_ = s.R_ ∧
    (start_bus_request mode cb s).PC = s.PC ∧
    (start_bus_request mode cb s).SP = s.SP ∧
    (start_bus_request mode cb s).IFF = s.IFF ∧
    (start_bus_request mode cb s).T = s.T ∧
    (start_bus_request mode cb s).cpu_bus = s.cpu_bus ∧
    (start_bus_request mode cb s).cpu_state = s.cpu_state ∧
    (start_bus_request mode cb s).cpu_error = s.cpu_error ∧
    (start_bus_request mode cb s).int_mode = s.int_mode ∧
    (start_bus_request mode cb s).int_nmi = s.int_nmi ∧
    (start_bus_request mode cb s).int_int = s.int_int ∧
    (start_bus_request mode cb s).int_data = s.int_data ∧
    (start_bus_request mode cb s).int_protection = s.int_protection ∧
    (start_bus_request mode cb s).power = s.power ∧
    (start_bus_request mode cb s).cpu_switch = s.cpu_switch ∧
    (start_bus_request mode cb s).fp_led_address = s.fp_led_address ∧
    (start_bus_request mode cb s).fp_led_data = s.fp_led_data ∧
    (start_bus_request mode cb s).fp_led_speed = s.fp_led_speed ∧
    (start_bus_request mode cb s).fp_led_wait = s.fp_led_wait ∧
    (start_bus_request mode cb s).fp_led_output = s.fp_led_output ∧
    (start_bus_request mode cb s).address_switch = s.address_switch ∧
    (start_bus_request mode cb s).f_flag = s.f_flag ∧
    (start_bus_request mode cb s).mem = s.mem ∧
    (end_bus_request s).bus_mode = BusDMA.BUS_DMA_NONE ∧
    (end_bus_request s).dma_bus_master = none ∧
    (end_bus_request s).bus_request = 0 ∧
    (end_bus_request s).cpu = s.cpu ∧
    (end_bus_request s).A = s.A ∧
    (end_bus_request s).B = s.B ∧
    (end_bus_request s).C = s.C ∧
    (end_bus_request s).D = s.D ∧
    (end_bus_request s).E = s.E ∧
    (end_bus_request s).H = s.H ∧
    (end_bus_request s).L = s.L ∧
    (end_bus_request s).F = s.F ∧
    (end_bus_request s).IX = s.IX ∧
    (end_bus_request s).IY = s.IY ∧
    (end_bus_request s).WZ = s.WZ ∧
    (end_bus_request s).A_ = s.A_ ∧
    (end_bus_request s).B_ = s.B_ ∧
    (end_bus_request s).C_ = s.C_ ∧
    (end_bus_request s).D_ = s.D_ ∧
    (end_bus_request s).E_ = s.E_ ∧
    (end_bus_request s).H_ = s.H_ ∧
    (end_bus_request s).L_ = s.L_ ∧
    (end_bus_request s).F_ = s.F_ ∧
    (end_bus_request s).I = s.I ∧
    (end_bus_request s).R = s.R ∧
    (end_bus_request s).R_ = s.R_ ∧
    (end_bus_request s).PC = s.PC ∧
    (end_bus_request s).SP = s.SP ∧
    (end_bus_request s).IFF = s.IFF ∧
    (end_bus_request s).T = s.T ∧
    (end_bus_request s).cpu_bus = s.cpu_bus ∧
    (end_bus_request s).cpu_state = s.cpu_state ∧
    (end_bus_request s).cpu_error = s.cpu_error ∧
    (end_bus_request s).int_mode = s.int_mode ∧
    (end_bus_request s).int_nmi = s.int_nmi ∧
    (end_bus_request s).int_int = s.int_int ∧
    (end_bus_request s).int_data = s.int_data ∧
    (end_bus_request s).int_protection = s.int_protection ∧
    (end_bus_request s).power = s.power ∧
    (end_bus_request s).cpu_switch = s.cpu_switch ∧
    (end_bus_request s).fp_led_address = s.fp_led_address ∧
    (end_bus_request s).fp_led_data = s.fp_led_data ∧
    (end_bus_request s).fp_led_speed = s.fp_led_speed ∧
    (end_bus_request s).fp_led_wait = s.fp_led_wait ∧
    (end_bus_request s).fp_led_output = s.fp_led_output ∧
    (end_bus_request s).address_switch = s.address_switch ∧
    (end_bus_request s).f_flag = s.f_flag ∧
    (end_bus_request s).mem = s.mem ∧
    end_bus_request (end_bus_request s) = end_bus_request s :=
  fun _ _ _ => ⟨rfl, rfl, rfl, rfl, rfl, rfl, rfl, rfl, rfl, rfl, rfl, rfl, rfl, rfl, rfl, rfl, rfl, rfl, rfl, rfl, rfl, rfl, rfl, rfl, rfl, rfl, rfl, rfl, rfl, rfl, rfl, rfl, rfl, rfl, rfl, rfl, rfl, rfl, rfl, rfl, rfl, rfl, rfl, rfl, rfl, rfl, rfl, rfl, rfl, rfl, rfl, rfl, rfl, rfl, rfl, rfl, rfl, rfl, rfl, rfl, rfl, rfl, rfl, rfl, rfl, rfl, rfl, rfl, rfl, rfl, rfl, rfl, rfl, rfl, rfl, rfl, rfl, rfl, rfl, rfl, rfl, rfl, rfl, rfl, rfl, rfl, rfl, rfl, rfl, rfl, rfl, rfl, rfl, rfl, rfl, rfl, rfl⟩

/-- C10: calling switch_cpu with the currently selected model is a
complete no-op: the state (including F and cpu_state) is returned
unchanged, so no MODEL_SWITCH pseudo-error reaches the scheduler. -/
theorem switch_cpu_same_noop : ∀ s : State, switch_cpu s.cpu s = s := by
  intro s
  simp [switch_cpu]

end Z80Pack
